import Mathlib

/-!
Verification of the conversational-session glue code in `main.py` of the Cocai
repository.  The file embeds the module-initialisation logic (chat-store loading,
model settings), `create_callback_manager`, `create_agent`, the two front-end entry
points (the web `factory` / `cleanup` handlers and the `__main__` terminal block),
and the placeholder substitution performed on the system prompt, and proves the
specified properties about them.  Framework pieces that are not part of the
repository (llama_index, chainlit) are modelled from the specification where a
claim depends on them; each such definition says so in its doc comment.
-/

/-- A single conversation turn: a role together with its text content
(spec section 3, "Chat turn: role + text content"). -/
structure ChatTurn where
  role : String
  content : String
deriving DecidableEq

/-- Modelled from the spec (section 6): the persisted chat store is "a mapping from
session key to an ordered list of role/content turns".  `SimpleChatStore` itself is
framework code not under src/. -/
structure SimpleChatStore where
  store : List (String × List ChatTurn)
deriving DecidableEq

/-- A fresh, empty chat store, as built by `SimpleChatStore()` in main.py line 56. -/
def SimpleChatStore.empty : SimpleChatStore := ⟨[]⟩

/-- Look up the ordered turn list stored under a session key (empty when absent). -/
def getTurnsList : List (String × List ChatTurn) → String → List ChatTurn
  | [], _ => []
  | (k, ts) :: rest, key => if k = key then ts else getTurnsList rest key

/-- The turns a chat store holds under a session key. -/
def SimpleChatStore.getTurns (s : SimpleChatStore) (key : String) : List ChatTurn :=
  getTurnsList s.store key

/-- Append one turn at the end of the list stored under a key, creating the entry
when the key is absent. -/
def appendTurnList : List (String × List ChatTurn) → String → ChatTurn →
    List (String × List ChatTurn)
  | [], key, t => [(key, [t])]
  | (k, ts) :: rest, key, t =>
      if k = key then (k, ts ++ [t]) :: rest else (k, ts) :: appendTurnList rest key t

/-- Append one turn to a chat store under a session key. -/
def SimpleChatStore.appendTurn (s : SimpleChatStore) (key : String) (t : ChatTurn) :
    SimpleChatStore :=
  ⟨appendTurnList s.store key t⟩

/-- Outcome of `SimpleChatStore.from_persist_path` at main.py line 53: either the
store parsed from the file, or an exception (file missing or corrupt) carrying a
message. -/
inductive LoadOutcome where
  | ok (store : SimpleChatStore)
  | failed (msg : String)
deriving DecidableEq

/-- Translated from main.py lines 52-56: the module initialisation wraps the load in
`try/except Exception`; on failure it logs one warning and continues with a fresh
empty store, on success it uses the loaded store.  The result pairs the store
actually used with the list of warnings logged. -/
def initChatStore : LoadOutcome → SimpleChatStore × List String
  | LoadOutcome.ok s => (s, [])
  | LoadOutcome.failed e =>
      (SimpleChatStore.empty,
       ["Failed to load chat store from file: " ++ e ++ ", using a new one."])

/-- The memory buffer configuration: translated from main.py lines 57-60, a
`ChatMemoryBuffer` is built over the module-global chat store with a fixed store
key. -/
structure ChatMemoryBuffer where
  chatStoreKey : String
deriving DecidableEq

/-- Translated from main.py lines 57-60: the single module-global memory buffer,
bound to the chat store under the fixed key "user1". -/
def chat_memory : ChatMemoryBuffer := { chatStoreKey := "user1" }

/-- A callback manager, identified by the ordered list of handler names it holds
(translated from main.py lines 94-112). -/
structure CallbackManager where
  handlers : List String
deriving DecidableEq

/-- The process-global `Settings` object of the framework, as configured by this
module: an LLM binding, an embedding-model binding and a callback manager. -/
structure Settings where
  llm : String
  embedModel : String
  callbackManager : CallbackManager
deriving DecidableEq

/-- Translated from main.py lines 94-112: builds a fresh callback manager holding
the debug handler and the trace handler, plus the chainlit handler exactly when
`should_use_chainlit` is set. -/
def create_callback_manager (shouldUseChainlit : Bool := true) : CallbackManager :=
  let callbackHandlers := ["LlamaDebugHandler", "OpenInferenceTraceCallbackHandler"]
  if shouldUseChainlit then ⟨callbackHandlers ++ ["LlamaIndexCallbackHandler"]⟩
  else ⟨callbackHandlers⟩

/-- A tool descriptor: name plus the direct-return flag
(spec section 3, "Tool descriptor"). -/
structure FunctionToolSpec where
  name : String
  returnDirect : Bool
deriving DecidableEq

/-- Modelled from the spec: `FunctionTool.from_defaults` is framework code not under
src/; per spec section 3 a tool descriptor carries "a flag indicating whether its
output is returned directly to the user", which is off unless set at registration. -/
def FunctionTool.from_defaults (name : String) (returnDirect : Bool := false) :
    FunctionToolSpec :=
  { name := name, returnDirect := returnDirect }

/-- Translated from main.py lines 121-132: the three registered tools, in source
order; only the choice-suggestion tool passes `return_direct=True`. -/
def all_tools : List FunctionToolSpec :=
  [FunctionTool.from_defaults "suggest_choices" true,
   FunctionTool.from_defaults "roll_a_dice",
   FunctionTool.from_defaults "roll_a_skill"]

/-- Left-to-right, non-overlapping replacement with an explicit skip counter:
`replaceAux pat rep k s` first skips `k` characters (the tail of an occurrence just
replaced), then scans `s`; whenever `pat` matches at the cursor it emits `rep` and
skips the occurrence, otherwise it copies one character. -/
def replaceAux (pat rep : List Char) : Nat → List Char → List Char
  | _, [] => []
  | k + 1, _ :: rest => replaceAux pat rep k rest
  | 0, c :: rest =>
      if pat.isPrefixOf (c :: rest) then
        rep ++ replaceAux pat rep (pat.length - 1) rest
      else
        c :: replaceAux pat rep 0 rest

/-- Python's `str.replace(pat, rep)` on character lists: every non-overlapping
occurrence of `pat`, scanned left to right, is replaced by `rep`
(main.py lines 143-147 call it with a nonempty pattern). -/
def pythonReplace (pat rep s : List Char) : List Char :=
  replaceAux pat rep 0 s

/-- The placeholder token substituted in the system prompt (main.py line 145). -/
def allowancePlaceholder : List Char := "{allowance}".toList

/-- Translated from main.py lines 141-147: the prompt template read from disk has
its allowance placeholder replaced by `str(max_action_steps)`. -/
def substituteAllowance (template : List Char) (maxActionSteps : Nat) : List Char :=
  pythonReplace allowancePlaceholder (Nat.repr maxActionSteps).toList template

/-- Modelled from the spec: the framework's default cap on reasoning iterations,
used by the agent constructor when the caller does not pass a bound
(spec glossary: an agent is "bounded by a maximum iteration count"). -/
def frameworkDefaultMaxIterations : Nat := 10

/-- The agent object produced by `create_agent`: the bound tool set, verbosity,
memory buffer, iteration cap and system prompt. -/
structure Agent where
  tools : List FunctionToolSpec
  verbose : Bool
  memory : ChatMemoryBuffer
  maxIterations : Nat
  systemPrompt : List Char
deriving DecidableEq

/-- Modelled from the spec: `ReActAgent.from_tools` is framework code not under
src/; it binds the tool set and the memory buffer and accepts an optional
maximum-iterations cap which defaults to the framework value when the caller does
not pass one.  The default system prompt is later overridden via
`update_prompts`. -/
def ReActAgent.from_tools (tools : List FunctionToolSpec) (verbose : Bool)
    (memory : ChatMemoryBuffer)
    (maxIterations : Nat := frameworkDefaultMaxIterations) : Agent :=
  { tools := tools, verbose := verbose, memory := memory,
    maxIterations := maxIterations, systemPrompt := [] }

/-- Translated from main.py lines 115-152: `create_agent` first overwrites the
process-global callback manager, then builds the agent over the fixed tool list and
the module-global memory buffer — passing no iteration bound to
`ReActAgent.from_tools` (the "x2 / +1" comment in the source is attached to no
argument) — and finally installs the system prompt obtained by substituting the
allowance into the template read from disk.  The prior `Settings` are threaded
explicitly; the result pairs the agent with the mutated settings. -/
def create_agent (settings : Settings) (template : List Char)
    (shouldUseChainlit : Bool) (maxActionSteps : Nat := 5) : Agent × Settings :=
  let settings1 : Settings :=
    { settings with callbackManager := create_callback_manager shouldUseChainlit }
  let agent := ReActAgent.from_tools all_tools true chat_memory
  let mySystemPrompt := substituteAllowance template maxActionSteps
  ({ agent with systemPrompt := mySystemPrompt }, settings1)

/-- Translated from main.py lines 155-157: the web on-chat-start handler builds the
session's agent with `should_use_chainlit=True` and the default allowance. -/
def factory (settings : Settings) (template : List Char) : Agent × Settings :=
  create_agent settings template true

/-- Translated from main.py line 195: the terminal entry point builds its agent
with `should_use_chainlit=False` and the default allowance. -/
def terminalCreateAgent (settings : Settings) (template : List Char) :
    Agent × Settings :=
  create_agent settings template false

/-- One step of the externally owned reasoning loop, as observed by this module:
either the agent calls the tool at an index (with the output that call produced) or
it emits a final answer. -/
inductive AgentAction where
  | callTool (idx : Nat) (output : String)
  | answer (text : String)
deriving DecidableEq

/-- Modelled from the spec (sections 4.1 and glossary): the reasoning loop consumes
a script of actions; a final answer ends the turn with its text, and a call to a
tool whose direct-return flag is set ends the turn with the tool output surfaced
verbatim, while a call to any other tool lets reasoning continue. -/
def runTurn (tools : List FunctionToolSpec) : List AgentAction → Option String
  | [] => none
  | AgentAction.answer t :: _ => some t
  | AgentAction.callTool i out :: rest =>
      match tools.get? i with
      | some tool => if tool.returnDirect then some out else runTurn tools rest
      | none => runTurn tools rest

/-- Modelled from the spec (section 4.2): each chat call appends the user turn to
the store entry named by the agent's memory key, triggers the externally owned
reasoning loop, and appends the response turn; the agent object itself is
returned unchanged. -/
def agentChat (a : Agent) (store : SimpleChatStore) (userMsg : String)
    (script : List AgentAction) : Agent × SimpleChatStore × String :=
  let response := (runTurn a.tools script).getD ""
  let store1 :=
    ((store.appendTurn a.memory.chatStoreKey
        { role := "user", content := userMsg }).appendTurn a.memory.chatStoreKey
      { role := "assistant", content := response })
  (a, store1, response)

/-- The on-disk state relevant to this module: the chat store each file path
currently holds, `none` for absent files. -/
abbrev Disk := String → Option SimpleChatStore

/-- Modelled from the spec (section 6): `SimpleChatStore.persist` is framework code
not under src/; it writes the whole store to the file at the given path,
"overwritten wholesale", regardless of what the file held. -/
def SimpleChatStore.persist (path : String) (store : SimpleChatStore)
    (disk : Disk) : Disk :=
  fun p => if p = path then some store else disk p

/-- Translated from main.py line 53: the path the chat store is loaded from at
startup. -/
def loadPath : String := "chat_store.json"

/-- Translated from main.py lines 163 and 200: the path both shutdown paths persist
the chat store to. -/
def persistPath : String := "chat_store.json"

/-- Translated from main.py lines 160-163: the web on-chat-end handler persists the
module-global chat store to the fixed path. -/
def cleanup (store : SimpleChatStore) (disk : Disk) : Disk :=
  SimpleChatStore.persist persistPath store disk

/-- How the terminal read-eval-print loop came to an end: a normal return, a
KeyboardInterrupt, or any other exception (carrying its description). -/
inductive ReplOutcome where
  | normal
  | keyboardInterrupt
  | otherError (exn : String)
deriving DecidableEq

/-- Translated from main.py lines 193-200: the `__main__` block runs the REPL under
`try/except KeyboardInterrupt`; only an interrupt triggers a persist, a normal
return persists nothing, and any other exception propagates (returned here as the
uncaught exception) with the disk untouched. -/
def terminalMain (outcome : ReplOutcome) (store : SimpleChatStore) (disk : Disk) :
    Disk × Option String :=
  match outcome with
  | ReplOutcome.normal => (disk, none)
  | ReplOutcome.keyboardInterrupt =>
      (SimpleChatStore.persist persistPath store disk, none)
  | ReplOutcome.otherError exn => (disk, some exn)

/-- Translated from main.py lines 66-89: the model bindings installed at module
initialisation; the callback manager starts empty until `create_agent` installs
one. -/
def settings0 : Settings :=
  { llm := "qwen2:7b", embedModel := "nomic-embed-text",
    callbackManager := { handlers := [] } }

/-! Unfolding equations for `replaceAux`. -/

theorem replaceAux_nil (pat rep : List Char) (k : Nat) : replaceAux pat rep k [] = [] := by
  cases k <;> rfl

theorem replaceAux_succ (pat rep : List Char) (j : Nat) (c : Char) (rest : List Char) :
    replaceAux pat rep (j + 1) (c :: rest) = replaceAux pat rep j rest := rfl

theorem replaceAux_zero_pos (pat rep : List Char) (c : Char) (rest : List Char)
    (hp : pat.isPrefixOf (c :: rest)) :
    replaceAux pat rep 0 (c :: rest) =
      rep ++ replaceAux pat rep (pat.length - 1) rest := by
  simp [replaceAux, hp]

theorem replaceAux_zero_neg (pat rep : List Char) (c : Char) (rest : List Char)
    (hp : ¬ pat.isPrefixOf (c :: rest)) :
    replaceAux pat rep 0 (c :: rest) = c :: replaceAux pat rep 0 rest := by
  simp [replaceAux, hp]

/-- A nonempty list whose characters all avoid `rep` can only be a prefix of a
replacement result if it was already a prefix of the (skipped) input: the scan
copies such characters unchanged until the first replacement, which would start
with a character of `rep`. -/
theorem prefix_of_replaceAux (pat rep : List Char) (hrep : rep ≠ []) :
    ∀ (s : List Char) (k : Nat) (q : List Char), (∀ a ∈ q, a ∉ rep) →
      q <+: replaceAux pat rep k s → q <+: List.drop k s := by
  intro s
  induction s with
  | nil =>
    intro k q _ h
    rw [replaceAux_nil] at h
    simp [List.prefix_nil.mp h]
  | cons c rest ih =>
    intro k q hq h
    cases k with
    | succ j =>
      rw [replaceAux_succ] at h
      simpa using ih j q hq h
    | zero =>
      by_cases hp : pat.isPrefixOf (c :: rest)
      · rw [replaceAux_zero_pos pat rep c rest hp] at h
        match q, hq, h with
        | [], _, _ => exact List.nil_prefix
        | q0 :: q', hq, h =>
          exfalso
          match rep, hrep, h with
          | r0 :: rep', _, h =>
            have h0 : q0 = r0 := (List.cons_prefix_cons.mp h).1
            exact hq q0 (by simp) (by simp [h0])
      · rw [replaceAux_zero_neg pat rep c rest hp] at h
        match q, hq, h with
        | [], _, _ => exact List.nil_prefix
        | q0 :: q', hq, h =>
          obtain ⟨h0, h'⟩ := List.cons_prefix_cons.mp h
          have hq' : ∀ a ∈ q', a ∉ rep := fun a ha => hq a (by simp [ha])
          have := ih 0 q' hq' (by simpa using h')
          simpa using List.cons_prefix_cons.mpr ⟨h0, by simpa using this⟩

/-- Peeling a block of characters disjoint from `pat` off the front cannot hide an
occurrence of `pat`: a nonempty `pat` occurring in `rep ++ X` with no character of
`pat` in `rep` must occur in `X`. -/
theorem infix_append_peel (pat : List Char) (hpat : pat ≠ []) :
    ∀ (rep X : List Char), (∀ a ∈ pat, a ∉ rep) → pat <:+: rep ++ X → pat <:+: X := by
  intro rep
  induction rep with
  | nil => intro X _ h; simpa using h
  | cons r0 rep' ih =>
    intro X hd h
    rcases List.infix_cons_iff.mp (by simpa using h) with hpre | hinf
    · exfalso
      match pat, hpat, hpre with
      | p0 :: pat', _, hpre =>
        have h0 : p0 = r0 := (List.cons_prefix_cons.mp hpre).1
        exact hd p0 (by simp) (by simp [h0])
    · exact ih X (fun a ha hmem => hd a ha (by simp [hmem])) hinf

/-- After replacement no occurrence of the (nonempty) pattern remains, provided the
replacement is nonempty and shares no character with the pattern. -/
theorem pattern_not_infix_replaceAux (pat rep : List Char) (hpat : pat ≠ [])
    (hrep : rep ≠ []) (hdisj : ∀ a ∈ pat, a ∉ rep) :
    ∀ (s : List Char) (k : Nat), ¬ pat <:+: replaceAux pat rep k s := by
  intro s
  induction s with
  | nil =>
    intro k h
    rw [replaceAux_nil] at h
    exact hpat (List.eq_nil_of_infix_nil h)
  | cons c rest ih =>
    intro k
    cases k with
    | succ j =>
      rw [replaceAux_succ]
      exact ih j
    | zero =>
      by_cases hp : pat.isPrefixOf (c :: rest)
      · rw [replaceAux_zero_pos pat rep c rest hp]
        intro h
        exact ih (pat.length - 1) (infix_append_peel pat hpat rep _ hdisj h)
      · rw [replaceAux_zero_neg pat rep c rest hp]
        intro h
        rcases List.infix_cons_iff.mp h with hpre | hinf
        · match pat, hpat, hdisj, hp, hpre with
          | p0 :: pat', _, hdisj, hp, hpre =>
            obtain ⟨h0, h'⟩ := List.cons_prefix_cons.mp hpre
            have hq : ∀ a ∈ pat', a ∉ rep := fun a ha => hdisj a (by simp [ha])
            have hrest : pat' <+: rest :=
              prefix_of_replaceAux (p0 :: pat') rep hrep rest 0 pat' hq (by simpa using h')
            exact hp ( List.isPrefixOf_iff_prefix.mpr
              (List.cons_prefix_cons.mpr ⟨h0, hrest⟩))
        · exact ih 0 hinf

/-- Whenever the pattern occurs past the skip point, the replacement text occurs in
the output. -/
theorem rep_infix_replaceAux (pat rep : List Char) (hpat : pat ≠ []) :
    ∀ (s : List Char) (k : Nat), pat <:+: List.drop k s →
      rep <:+: replaceAux pat rep k s := by
  intro s
  induction s with
  | nil =>
    intro k h
    exact absurd (List.eq_nil_of_infix_nil (by simpa using h)) hpat
  | cons c rest ih =>
    intro k h
    cases k with
    | succ j =>
      rw [replaceAux_succ]
      exact ih j (by simpa using h)
    | zero =>
      by_cases hp : pat.isPrefixOf (c :: rest)
      · rw [replaceAux_zero_pos pat rep c rest hp]
        exact (List.prefix_append rep _).isInfix
      · rw [replaceAux_zero_neg pat rep c rest hp]
        rcases List.infix_cons_iff.mp (by simpa using h) with hpre | hinf
        · exact absurd ( List.isPrefixOf_iff_prefix.mpr hpre) hp
        · exact List.infix_cons (ih 0 (by simpa using hinf))

/-- `pythonReplace` leaves no occurrence of the pattern when pattern and
replacement are nonempty and share no character. -/
theorem pythonReplace_no_pattern (pat rep : List Char) (hpat : pat ≠ [])
    (hrep : rep ≠ []) (hdisj : ∀ a ∈ pat, a ∉ rep) (s : List Char) :
    ¬ pat <:+: pythonReplace pat rep s :=
  pattern_not_infix_replaceAux pat rep hpat hrep hdisj s 0

/-- `pythonReplace` puts the replacement into the output whenever the (nonempty)
pattern occurred in the input. -/
theorem pythonReplace_has_rep (pat rep : List Char) (hpat : pat ≠ []) (s : List Char)
    (h : pat <:+: s) : rep <:+: pythonReplace pat rep s :=
  rep_infix_replaceAux pat rep hpat s 0 (by simpa using h)

/-- Appending a turn under a key extends exactly that key's ordered turn list. -/
theorem getTurnsList_appendTurnList (l : List (String × List ChatTurn))
    (key : String) (t : ChatTurn) :
    getTurnsList (appendTurnList l key t) key = getTurnsList l key ++ [t] := by
  induction l with
  | nil => simp [appendTurnList, getTurnsList]
  | cons p rest ih =>
    obtain ⟨k, ts⟩ := p
    by_cases hk : k = key
    · simp [appendTurnList, getTurnsList, hk]
    · simp [appendTurnList, getTurnsList, hk, ih]

/-- C1: if loading the persisted chat store fails for any reason, the program does
not raise (`initChatStore` is total on every load outcome): it logs exactly one
warning and continues with a fresh empty chat store; whenever the load succeeds,
the loaded store is used and nothing is logged. -/
theorem chat_store_load_fallback (e : String) (s : SimpleChatStore) :
    (initChatStore (LoadOutcome.failed e)).1 = SimpleChatStore.empty ∧
    (initChatStore (LoadOutcome.failed e)).2.length = 1 ∧
    initChatStore (LoadOutcome.ok s) = (s, []) :=
  ⟨rfl, rfl, rfl⟩

/-- C2: substituting the allowance placeholder with the default value 5 in any
template that contains the placeholder yields a prompt that contains the literal
text "5" and no remaining "\x7ballowance\x7d" token. -/
theorem allowance_substitution_complete (template : List Char)
    (h : allowancePlaceholder <:+: template) :
    ('5' :: []) <:+: substituteAllowance template 5 ∧
    ¬ allowancePlaceholder <:+: substituteAllowance template 5 := by
  constructor
  · exact pythonReplace_has_rep allowancePlaceholder ('5' :: []) (by decide) template h
  · exact pythonReplace_no_pattern allowancePlaceholder (Nat.repr 5).toList
      (by decide) (by decide) (by decide) template

/-- Witness for C2 at a concrete template containing the placeholder once. -/
theorem allowance_substitution_complete_witness :
    allowancePlaceholder <:+: ("Take at most {allowance} actions.".toList) ∧
    (('5' :: []) <:+: substituteAllowance ("Take at most {allowance} actions.".toList) 5 ∧
     ¬ allowancePlaceholder <:+:
        substituteAllowance ("Take at most {allowance} actions.".toList) 5) :=
  ⟨by decide, allowance_substitution_complete ("Take at most {allowance} actions.".toList)
    (by decide)⟩

/-- C3: the choice-suggestion tool is registered with the direct-return flag set
and the dice and skill tools without it; consequently, once the loop invokes the
choice-suggestion tool its output ends the turn verbatim, while invoking the dice
or skill tool leaves the loop to continue. -/
theorem choice_tool_return_direct :
    all_tools.map FunctionToolSpec.returnDirect = [true, false, false] ∧
    (∀ (out : String) (rest : List AgentAction),
      runTurn all_tools (AgentAction.callTool 0 out :: rest) = some out) ∧
    (∀ (out : String) (rest : List AgentAction),
      runTurn all_tools (AgentAction.callTool 1 out :: rest) = runTurn all_tools rest ∧
      runTurn all_tools (AgentAction.callTool 2 out :: rest) = runTurn all_tools rest) :=
  ⟨rfl, fun _ _ => rfl, fun _ _ => ⟨rfl, rfl⟩⟩

/-- C4 counterexample: two successively started web sessions (the second sees the
settings mutated by the first) get agents with the very same memory view, and a
turn written by the first session's chat operation is readable through the second
session's agent — refuting cross-session memory independence at a concrete input. -/
theorem session_memory_not_independent :
    ((factory settings0 []).1).memory = ((factory ((factory settings0 []).2) []).1).memory ∧
    SimpleChatStore.getTurns
        (agentChat (factory settings0 []).1 SimpleChatStore.empty "hello" []).2.1
        (((factory ((factory settings0 []).2) []).1).memory.chatStoreKey)
      = [{ role := "user", content := "hello" }, { role := "assistant", content := "" }] :=
  ⟨rfl, by decide⟩

/-- C4 amended: each web session owns its own agent object, but every session's
agent binds the single module-global memory buffer (store key "user1"), so the
turns written by one session's chat operation are exactly what any other session's
agent reads back. -/
theorem sessions_share_global_memory (s1 s2 : Settings) (t1 t2 : List Char)
    (store : SimpleChatStore) (msg : String) (script : List AgentAction) :
    (factory s1 t1).1.memory = chat_memory ∧
    (factory s2 t2).1.memory = chat_memory ∧
    SimpleChatStore.getTurns (agentChat (factory s1 t1).1 store msg script).2.1
        ((factory s2 t2).1.memory.chatStoreKey)
      = SimpleChatStore.getTurns store "user1" ++
        [{ role := "user", content := msg },
         { role := "assistant", content := (runTurn all_tools script).getD "" }] := by
  refine ⟨rfl, rfl, ?_⟩
  have hkey : (factory s1 t1).1.memory.chatStoreKey = "user1" := rfl
  have hkey2 : (factory s2 t2).1.memory.chatStoreKey = "user1" := rfl
  have htools : (factory s1 t1).1.tools = all_tools := rfl
  simp [agentChat, SimpleChatStore.getTurns, SimpleChatStore.appendTurn, hkey, hkey2,
    htools, getTurnsList_appendTurnList]

/-- C5 (code evaluation): `create_agent` passes no iteration bound to the framework
constructor, so every agent's cap is the framework default — independent of
`max_action_steps`; in particular with allowance 7 the cap is not the
2 * 7 + 1 that the source's own "x2 / +1" comment describes. -/
theorem iteration_bound_not_derived_from_allowance :
    (∀ (settings : Settings) (template : List Char) (b : Bool) (m : Nat),
      (create_agent settings template b m).1.maxIterations = frameworkDefaultMaxIterations) ∧
    (create_agent settings0 [] false 7).1.maxIterations
      = (create_agent settings0 [] false 5).1.maxIterations ∧
    (create_agent settings0 [] false 7).1.maxIterations ≠ 2 * 7 + 1 :=
  ⟨fun _ _ _ _ => rfl, rfl, by decide⟩

/-- C6: both termination paths — the web session-end handler and the terminal
interrupt handler — persist the full store to the fixed path "chat_store.json",
which is the very path the store was loaded from, overwriting whatever the file
held, and touch no other path. -/
theorem termination_persists_wholesale (store : SimpleChatStore) (disk : Disk) :
    persistPath = loadPath ∧
    cleanup store disk persistPath = some store ∧
    (terminalMain ReplOutcome.keyboardInterrupt store disk).1 persistPath = some store ∧
    (∀ p : String, p ≠ persistPath → cleanup store disk p = disk p ∧
      (terminalMain ReplOutcome.keyboardInterrupt store disk).1 p = disk p) := by
  refine ⟨rfl, ?_, ?_, ?_⟩
  · simp [cleanup, SimpleChatStore.persist]
  · simp [terminalMain, SimpleChatStore.persist]
  · intro p hp
    constructor <;> simp [cleanup, terminalMain, SimpleChatStore.persist, hp]

/-- Witness for C6 at a concrete store, disk and off-path file name. -/
theorem termination_persists_wholesale_witness :
    cleanup SimpleChatStore.empty (fun _ => none) "other.json" = (fun _ => none) "other.json" ∧
    (terminalMain ReplOutcome.keyboardInterrupt SimpleChatStore.empty
        (fun _ => none)).1 "other.json" = (fun _ => none) "other.json" :=
  (termination_persists_wholesale SimpleChatStore.empty (fun _ => none)).2.2.2
    "other.json" (by decide)

/-- C7: the tool set bound at construction is exactly the three registered tools —
choice suggestion, dice roller, skill roller — and a chat call leaves the agent's
tool set unchanged. -/
theorem tool_set_fixed (settings : Settings) (template : List Char) (b : Bool)
    (m : Nat) (a : Agent) (store : SimpleChatStore) (msg : String)
    (script : List AgentAction) :
    (create_agent settings template b m).1.tools = all_tools ∧
    all_tools.length = 3 ∧
    all_tools.map FunctionToolSpec.name = ["suggest_choices", "roll_a_dice", "roll_a_skill"] ∧
    (agentChat a store msg script).1.tools = a.tools :=
  ⟨rfl, rfl, rfl, rfl⟩

/-- C8: the terminal entry point persists the chat store exactly when the REPL
raises KeyboardInterrupt; a normal return or any other exception leaves the disk
untouched (the latter propagating as the uncaught exception). -/
theorem terminal_persist_iff_interrupt (store : SimpleChatStore) (disk : Disk) :
    terminalMain ReplOutcome.normal store disk = (disk, none) ∧
    terminalMain ReplOutcome.keyboardInterrupt store disk
      = (SimpleChatStore.persist persistPath store disk, none) ∧
    (∀ exn : String, terminalMain (ReplOutcome.otherError exn) store disk = (disk, some exn)) ∧
    (∀ outcome : ReplOutcome, outcome ≠ ReplOutcome.keyboardInterrupt →
      (terminalMain outcome store disk).1 = disk) := by
  refine ⟨rfl, rfl, fun _ => rfl, ?_⟩
  intro outcome h
  cases outcome with
  | normal => rfl
  | keyboardInterrupt => exact absurd rfl h
  | otherError exn => rfl

/-- Witness for C8 at a concrete store, disk and non-interrupt outcome. -/
theorem terminal_persist_iff_interrupt_witness :
    (terminalMain ReplOutcome.normal SimpleChatStore.empty (fun _ => none)).1
      = (fun _ => none) :=
  (terminal_persist_iff_interrupt SimpleChatStore.empty (fun _ => none)).2.2.2
    ReplOutcome.normal (by decide)

/-- C9: both front-ends construct their agent without overriding the default
`max_action_steps`, so in a web session and in the terminal run alike the value
substituted for the placeholder is exactly the text "5". -/
theorem frontends_use_default_allowance (settings : Settings) (template : List Char) :
    (factory settings template).1.systemPrompt
        = pythonReplace allowancePlaceholder ('5' :: []) template ∧
    (terminalCreateAgent settings template).1.systemPrompt
        = pythonReplace allowancePlaceholder ('5' :: []) template ∧
    (Nat.repr 5).toList = '5' :: [] :=
  ⟨rfl, rfl, rfl⟩

/-- C10: every `create_agent` call overwrites the process-global callback manager
with a freshly built one, whatever the prior settings were; the fresh manager holds
the chainlit handler exactly when `should_use_chainlit` is set and always holds the
debug and trace handlers. -/
theorem create_agent_overwrites_callback_manager (settings : Settings)
    (template : List Char) (b : Bool) (m : Nat) :
    (create_agent settings template b m).2
      = { settings with callbackManager := create_callback_manager b } ∧
    ("LlamaIndexCallbackHandler" ∈ (create_callback_manager b).handlers ↔ b = true) ∧
    "LlamaDebugHandler" ∈ (create_callback_manager b).handlers ∧
    "OpenInferenceTraceCallbackHandler" ∈ (create_callback_manager b).handlers := by
  refine ⟨rfl, ?_, ?_, ?_⟩ <;> cases b <;> decide
